import Mathlib

/-
Verification of the authentication and abuse-control subsystem of the
WebAPI backend (Express/TypeScript).  The definitions below are a shallow
embedding of the source files:

  * server/routes.ts            (register, waitlist, login, verify endpoints,
                                 hashPassword / verifyPassword PBKDF2 helpers,
                                 verification-token utilities)
  * server/auth middleware      (passwordUtils, jwtUtils, requireApiKey,
                                 validateOrigin, rateLimitByUser,
                                 strictRateLimitByIP)
  * server/storage.ts           (MemStorage)
  * shared/schema.ts            (insertUserSchema, insertWaitlistSchema)

JS strings are modelled as `List Char`; timestamps (JS `Date` / epoch
milliseconds, with `toISOString` round-tripping) as `Nat`; JS `Map`s as
association lists in insertion order.  Cryptographic digest primitives
(pbkdf2Sync, sha256, bcrypt) are abstracted as function parameters.
-/

set_option maxRecDepth 8000

namespace WebApi

/-- JS strings, modelled as lists of characters. -/
abbrev Str : Type := List Char

/-- JS whitespace characters matched by `\s` and removed by `String.trim`
(ASCII subset: space, tab, LF, CR, VT, FF). -/
def jsWs (c : Char) : Bool :=
  c = ' ' || c = '\t' || c = '\n' || c = '\r' || c = '\x0b' || c = '\x0c'

/-- JS `String.prototype.trim`. -/
def jsTrim (s : Str) : Str :=
  ((s.dropWhile jsWs).reverse.dropWhile jsWs).reverse

/-- JS `String.prototype.toLowerCase` (character-wise lowering). -/
def jsToLower (s : Str) : Str := s.map Char.toLower

/-- JS `a || b` for strings (empty string is falsy). -/
def jsOrS (a b : Str) : Str := if a = [] then b else a

/-- JS truthiness test for an optional string: `undefined`/`null` and the
empty string are falsy. -/
def optFalsy (o : Option Str) : Bool :=
  match o with
  | some s => s.isEmpty
  | none => true

/-- Decimal rendering of a number, for template-literal interpolation. -/
def natStr (n : Nat) : Str := (Nat.repr n).data

/-- JS `String.prototype.split` with a single-character separator. -/
def splitChar (sep : Char) : Str → List Str
  | [] => [[]]
  | c :: rest =>
    if c = sep then [] :: splitChar sep rest
    else
      match splitChar sep rest with
      | [] => [[c]]
      | h :: t => (c :: h) :: t

/-- One fixed-window counter, the value type of the rate-limit `Map`s
(`{ count: number; resetTime: number }`). -/
structure Counter where
  count : Nat
  resetTime : Nat
deriving DecidableEq

/-- A JS `Map<string, α>` in insertion order. -/
abbrev AssocMap (α : Type) : Type := List (Str × α)

/-- JS `Map.prototype.get`. -/
def assocGet {α : Type} (m : AssocMap α) (k : Str) : Option α :=
  match m with
  | [] => none
  | (k2, v) :: rest => if k2 = k then some v else assocGet rest k

/-- JS `Map.prototype.set` (replaces in place, keeping insertion order). -/
def assocSet {α : Type} (m : AssocMap α) (k : Str) (v : α) : AssocMap α :=
  match m with
  | [] => [(k, v)]
  | (k2, w) :: rest =>
    if k2 = k then (k2, v) :: rest else (k2, w) :: assocSet rest k v

abbrev RateMap : Type := AssocMap Counter

/-- Outcome of one rate-limiter check. -/
inductive RateResult : Type where
  | allowed : RateResult
  | denied (retryAfter : Nat) : RateResult
deriving DecidableEq

/-- The fixed-window counting step shared verbatim by `rateLimitByUser` and
`strictRateLimitByIP` in the auth middleware: on a missing entry or when
`now > resetTime`, store `{count: 1, resetTime: now + windowMs}` and allow;
otherwise deny when `count >= maxRequests` with
`retryAfter = Math.ceil((resetTime - now) / 1000)` (map untouched), else
increment the count in place and allow. -/
def checkAndIncrement (m : RateMap) (k : Str) (now maxRequests windowMs : Nat) :
    RateMap × RateResult :=
  match assocGet m k with
  | none => (assocSet m k ⟨1, now + windowMs⟩, RateResult.allowed)
  | some st =>
    if now > st.resetTime then
      (assocSet m k ⟨1, now + windowMs⟩, RateResult.allowed)
    else if st.count ≥ maxRequests then
      (m, RateResult.denied ((st.resetTime - now + 999) / 1000))
    else
      (assocSet m k ⟨st.count + 1, st.resetTime⟩, RateResult.allowed)

/-- Source `hashVerificationToken` (utils/verification): the SHA-256 hex
digest of the plaintext token.  The digest primitive
(`crypto.createHash("sha256")...digest("hex")`, 64 hex characters) is
abstracted as the parameter `sha256hex`. -/
def hashVerificationToken (sha256hex : Str → Str) (token : Str) : Str :=
  sha256hex token

/-- Source `verifyTokenHash`: recomputes the digest and compares it to the
stored hash with `crypto.timingSafeEqual`.  The source performs NO
equal-length pre-check; `timingSafeEqual` itself throws a `RangeError` when
the two buffers differ in byte length, which this embedding models as the
`Except.error` branch. -/
def verifyTokenHash (sha256hex : Str → Str) (token hash : Str) : Except Str Bool :=
  let tokenHash := hashVerificationToken sha256hex token
  if tokenHash.length = hash.length then Except.ok (tokenHash == hash)
  else Except.error "Input buffers must have the same byte length".data

/-- Source `createVerificationExpiry`: 24 hours from now, in epoch ms. -/
def createVerificationExpiry (now : Nat) : Nat := now + 86400000

/-- Source `isVerificationExpired`: `new Date() > expiryDate`. -/
def isVerificationExpired (now expiry : Nat) : Bool := decide (expiry < now)

/-- Source `hashPassword` (routes.ts): draws a 16-byte salt, hex-encoded
(32 lowercase hex characters), and stores `salt + ":" + pbkdf2(password,
salt)`.  The PBKDF2-SHA512 hex digest is abstracted as the parameter
`pbkdf2`; the drawn salt becomes an explicit argument. -/
def hashPassword (pbkdf2 : Str → Str → Str) (password salt : Str) : Str :=
  salt ++ ':' :: pbkdf2 password salt

/-- Source `verifyPassword` (routes.ts): splits the stored record on `:`,
takes the first two fields as salt and hash (the hash field is `undefined`
when there is no colon, and `undefined === string` is false), recomputes the
digest with the extracted salt and compares. -/
def verifyPassword (pbkdf2 : Str → Str → Str) (password hashedPassword : Str) : Bool :=
  match splitChar ':' hashedPassword with
  | salt :: h :: _ => h == pbkdf2 password salt
  | _ => false

/-- Lowercase hex digit, the alphabet of `randomBytes(16).toString("hex")`. -/
def isLowerHexDigit (c : Char) : Bool :=
  ('0' ≤ c && c ≤ '9') || ('a' ≤ c && c ≤ 'f')

/-- The set of records actually produced by `hashPassword`: a 32-character
lowercase-hex salt, a colon, and the digest. -/
def InHashImage (pbkdf2 : Str → Str → Str) (r : Str) : Prop :=
  ∃ p s, s.length = 32 ∧ s.all isLowerHexDigit = true ∧ r = hashPassword pbkdf2 p s

/-- JWT payloads issued by `jwtUtils`: `generateToken` signs
`{id, username, role}`, `generateRefreshToken` signs `{id, type:"refresh"}`.
Signing with the shared secret is injective on payloads, so tokens are
modelled by their payloads. -/
inductive Token : Type where
  | access (id username role : Str) : Token
  | refresh (id : Str) : Token
deriving DecidableEq

/-- The `user` object embedded in register/login response bodies. -/
structure UserView where
  id : Str
  username : Str
  role : Str
deriving DecidableEq

/-- A JSON response: status code plus the union of the body fields emitted
by the modelled endpoints; fields a branch does not set are `none`. -/
structure Resp where
  status : Nat := 0
  message : Option Str := none
  error : Option Str := none
  user : Option UserView := none
  token : Option Token := none
  refreshToken : Option Token := none
  retryAfter : Option Nat := none
  id : Option Str := none
  name : Option Str := none
  email : Option Str := none
deriving DecidableEq

/-- The `users` row (shared/schema.ts); date fields in epoch ms. -/
structure User where
  id : Str
  username : Str
  password : Str
  role : Str
  emailVerified : Option Nat := none
  emailVerificationToken : Option Str := none
  emailVerificationExpires : Option Nat := none
  createdAt : Nat := 0
  updatedAt : Nat := 0
deriving DecidableEq

/-- The `waitlist` row (shared/schema.ts). -/
structure WEntry where
  id : Str
  email : Str
  name : Str
  interests : Option Str := none
  createdAt : Nat := 0
  emailVerified : Option Nat := none
  emailVerificationToken : Option Str := none
  emailVerificationExpires : Option Nat := none
deriving DecidableEq

/-- The input of `MemStorage.createWaitlistEntry`: the `entryData` object
built by the waitlist route, including the verification fields. -/
structure WInsert where
  name : Str
  email : Str
  interests : Option Str := none
  emailVerified : Option Nat := none
  emailVerificationToken : Option Str := none
  emailVerificationExpires : Option Nat := none
deriving DecidableEq

/-- In-memory server state: the two module-level rate-limit maps of the
auth middleware plus `MemStorage`'s two stores. -/
structure ServerState where
  userCounts : RateMap := []
  ipCounts : RateMap := []
  users : List User := []
  waitlist : AssocMap WEntry := []
deriving DecidableEq

/-- An inbound request: client IP, the headers and the body/query fields
read by the modelled endpoints. -/
structure ApiReq where
  ip : Str := []
  xApiKey : Option Str := none
  origin : Option Str := none
  referer : Option Str := none
  username : Option Str := none
  email : Option Str := none
  password : Option Str := none
  name : Option Str := none
  interests : Option Str := none
  token : Option Str := none
deriving DecidableEq

/-- Environment configuration read by the auth middleware. -/
structure Config where
  apiKey : Str
  allowedOrigins : List Str
  isProduction : Bool

/-- The permissive email shape of shared/schema.ts, the regular expression
`/^[^\s@]+@[^\s@]+\.[^\s@]+$/`: a nonempty local part free of whitespace
and `@`, exactly one `@`, and a whitespace-free domain containing a dot
that is neither its first nor its last character. -/
def emailRegexTest (s : Str) : Bool :=
  match splitChar '@' s with
  | [a, b] =>
    !a.isEmpty && a.all (fun c => !jsWs c) && b.all (fun c => !jsWs c)
      && ((b.drop 1).dropLast.contains '.')
  | _ => false

/-- Validation of `insertUserSchema.safeParse({username, password})`:
username a string of length ≥ 1 matching the email pattern, password a
string of length ≥ 6 (no maximum), role optional with default. -/
def insertUserSchemaOk (username : Str) (password : Option Str) : Bool :=
  (1 ≤ username.length) && emailRegexTest username &&
    (match password with
     | some p => 6 ≤ p.length
     | none => false)

/-- Validation of `insertWaitlistSchema.safeParse({name, email,
interests})`. -/
def insertWaitlistSchemaOk (name email : Option Str) : Bool :=
  (match name with
   | some n => 1 ≤ n.length
   | none => false) &&
  (match email with
   | some e => (1 ≤ e.length) && emailRegexTest e
   | none => false)

def msgInvalidInput : Str := "Invalid input".data

def msgUserExists : Str := "User already exists".data

def msgRegSuccess : Str := "Registration successful".data

def msgEmailRegistered : Str := "Email already registered".data

def msgWaitlistCheck : Str :=
  "Please check your email to verify your address and complete your waitlist registration.".data

def msgUserPassRequired : Str := "Username and password are required".data

def msgInvalidCredentials : Str := "Invalid credentials".data

def msgLoginSuccess : Str := "Login successful".data

def msgTokenEmailRequired : Str := "Token and email are required".data

def msgInvalidVerificationLink : Str := "Invalid verification link".data

def msgInvalidVerificationToken : Str := "Invalid verification token".data

def msgVerificationExpired : Str := "Verification link has expired".data

def msgWaitlistVerified : Str :=
  "Email verified successfully! You\x27ve been added to the waitlist.".data

def msgRegVerified : Str :=
  "Email verified successfully! Your account is now active.".data

/-- Denial body of `rateLimitByUser`. -/
def rlMsgUser (t : Nat) : Str :=
  "Too many requests. Try again in ".data ++ natStr t ++ " seconds.".data

/-- Denial body of `strictRateLimitByIP`. -/
def rlMsgIp (t : Nat) : Str :=
  "Too many requests from this IP. Try again in ".data ++ natStr t ++ " seconds.".data

def resp400 (m : Str) : Resp := { status := 400, message := some m }

def resp404 (m : Str) : Resp := { status := 404, message := some m }

def resp409 (m : Str) : Resp := { status := 409, message := some m }

def resp429User (t : Nat) : Resp :=
  { status := 429, error := some "Rate limit exceeded".data,
    message := some (rlMsgUser t) }

def resp429Ip (t : Nat) : Resp :=
  { status := 429, error := some "Rate limit exceeded".data,
    message := some (rlMsgIp t), retryAfter := some t }

def resp401ApiKey : Resp :=
  { status := 401, error := some "API key required".data,
    message := some "Please provide a valid API key in the x-api-key header".data }

def resp403ApiKey : Resp :=
  { status := 403, error := some "Invalid API key".data,
    message := some "The provided API key is not valid".data }

def resp403Origin : Resp :=
  { status := 403, error := some "Origin not allowed".data,
    message := some "Requests from this origin are not permitted".data }

def resp500 (e : Str) : Resp := { status := 500, error := some e }

/-- The `requireApiKey` middleware: 401 when the `x-api-key` header is
absent (or empty, which is falsy), 403 when present but different from the
configured key; `none` means the pipeline continues. -/
def requireApiKeyCheck (cfg : Config) (req : ApiReq) : Option Resp :=
  if optFalsy req.xApiKey then some resp401ApiKey
  else if req.xApiKey ≠ some cfg.apiKey then some resp403ApiKey
  else none

/-- The `validateOrigin` middleware.  Extraction of `protocol//host` from
the Referer header (`new URL(referer)`) is abstracted as `refererOrigin`;
`none` models a URL-parse throw, which no handler catches (HTTP 500). -/
def validateOriginCheck (cfg : Config) (refererOrigin : Str → Option Str)
    (req : ApiReq) : Option Resp :=
  if optFalsy req.origin && optFalsy req.referer && !cfg.isProduction then none
  else if (match req.origin with
           | some o => !o.isEmpty && cfg.allowedOrigins.contains o
           | none => false) then none
  else
    match req.referer with
    | some r =>
      if r.isEmpty then some resp403Origin
      else
        match refererOrigin r with
        | some ro =>
          if cfg.allowedOrigins.contains ro then none else some resp403Origin
        | none => some (resp500 "Invalid URL".data)
    | none => some resp403Origin

/-- Rate key of `rateLimitByUser` (`req.user?.id || req.ip || "anonymous"`;
the modelled public endpoints carry no authenticated user). -/
def userKey (req : ApiReq) : Str := jsOrS req.ip "anonymous".data

/-- Rate key of `strictRateLimitByIP` (`req.ip || remoteAddress ||
"unknown"`). -/
def ipKey (req : ApiReq) : Str := jsOrS req.ip "unknown".data

/-- One application of `rateLimitByUser` to its module-level map. -/
def rateLimitByUserStep (maxR w now : Nat) (m : RateMap) (req : ApiReq) :
    RateMap × Option Resp :=
  match checkAndIncrement m (userKey req) now maxR w with
  | (m2, RateResult.allowed) => (m2, none)
  | (m2, RateResult.denied t) => (m2, some (resp429User t))

/-- One application of `strictRateLimitByIP` to its module-level map. -/
def strictRateLimitByIPStep (maxR w now : Nat) (m : RateMap) (req : ApiReq) :
    RateMap × Option Resp :=
  match checkAndIncrement m (ipKey req) now maxR w with
  | (m2, RateResult.allowed) => (m2, none)
  | (m2, RateResult.denied t) => (m2, some (resp429Ip t))

/-- `jwtUtils.generateToken`: payload `{id, username, role: role || "user"}`. -/
def generateToken (id username : Str) (role : Option Str) : Token :=
  Token.access id username
    (match role with
     | some r => jsOrS r "user".data
     | none => "user".data)

/-- `jwtUtils.generateRefreshToken`. -/
def generateRefreshToken (id : Str) : Token := Token.refresh id

/-- `MemStorage.getUserByUsername`: first user (in insertion order) with
the given username. -/
def getUserByUsername (users : List User) (username : Str) : Option User :=
  users.find? (fun u => u.username == username)

/-- `MemStorage.createUser`: fresh random id (parameter), `role || "user"`,
verification fields null; appended in insertion order. -/
def createUser (newId : Str) (now : Nat) (username password : Str)
    (role : Option Str) (users : List User) : List User × User :=
  let u : User :=
    { id := newId, username := username, password := password,
      role := (match role with
               | some r => jsOrS r "user".data
               | none => "user".data),
      emailVerified := none, emailVerificationToken := none,
      emailVerificationExpires := none, createdAt := now, updatedAt := now }
  (users ++ [u], u)

/-- `MemStorage.createWaitlistEntry`: builds the stored row from the input,
but sets `emailVerified`, `emailVerificationToken` and
`emailVerificationExpires` to null unconditionally, discarding whatever the
caller supplied; `interests` is `entry.interests || null`. -/
def createWaitlistEntry (newId : Str) (now : Nat) (entry : WInsert)
    (m : AssocMap WEntry) : AssocMap WEntry × WEntry :=
  let we : WEntry :=
    { id := newId, email := entry.email, name := entry.name,
      interests := (match entry.interests with
                    | some i => if i = [] then none else some i
                    | none => none),
      createdAt := now, emailVerified := none,
      emailVerificationToken := none, emailVerificationExpires := none }
  (assocSet m we.email we, we)

/-- `MemStorage.updateWaitlistVerification`. -/
def updateWaitlistVerification (email : Str) (verified : Bool)
    (tok : Option Str) (expires : Option Nat) (now : Nat)
    (m : AssocMap WEntry) : AssocMap WEntry :=
  match assocGet m email with
  | none => m
  | some e =>
    assocSet m email
      { e with
        emailVerified := if verified then some now else none,
        emailVerificationToken := (match tok with
                                   | some t => if t = [] then none else some t
                                   | none => none),
        emailVerificationExpires := expires }

/-- `MemStorage.updateUserVerification`: mutates the first user whose
username equals the email. -/
def updateUserVerification (email : Str) (verified : Bool) (tok : Option Str)
    (expires : Option Nat) (now : Nat) : List User → List User
  | [] => []
  | u :: rest =>
    if u.username == email then
      { u with
        emailVerified := if verified then some now else none,
        emailVerificationToken := (match tok with
                                   | some t => if t = [] then none else some t
                                   | none => none),
        emailVerificationExpires := expires } :: rest
    else u :: updateUserVerification email verified tok expires now rest

/-- Handler body of POST /api/register.  `bcryptHash` abstracts
`passwordUtils.hash` (bcrypt with its per-call salt draw folded in);
`newId` abstracts `randomUUID()`. -/
def registerHandler (bcryptHash : Str → Str) (newId : Str) (now : Nat)
    (st : ServerState) (req : ApiReq) : ServerState × Resp :=
  let username := jsToLower (jsTrim ((req.username).getD ((req.email).getD [])))
  if !(insertUserSchemaOk username req.password) then
    (st, resp400 msgInvalidInput)
  else
    match getUserByUsername st.users username with
    | some _ => (st, resp409 msgUserExists)
    | none =>
      let hashed := bcryptHash ((req.password).getD [])
      let created := createUser newId now username hashed (some "user".data) st.users
      let tok := generateToken created.2.id created.2.username (some created.2.role)
      ({ st with users := created.1 },
        { status := 201,
          user := some ⟨created.2.id, created.2.username, created.2.role⟩,
          token := some tok,
          message := some msgRegSuccess })

/-- POST /api/register with its full middleware chain, in source order:
the app-level `rateLimitByUser(100, 15min)`, then the route middlewares
`strictRateLimitByIP(5, 1h)`, `requireApiKey`, `validateOrigin`, then the
handler. -/
def registerEndpoint (cfg : Config) (refererOrigin : Str → Option Str)
    (bcryptHash : Str → Str) (newId : Str) (now : Nat)
    (st : ServerState) (req : ApiReq) : ServerState × Resp :=
  match rateLimitByUserStep 100 900000 now st.userCounts req with
  | (uc, some r) => ({ st with userCounts := uc }, r)
  | (uc, none) =>
    match strictRateLimitByIPStep 5 3600000 now st.ipCounts req with
    | (ic, some r) => ({ st with userCounts := uc, ipCounts := ic }, r)
    | (ic, none) =>
      let st1 := { st with userCounts := uc, ipCounts := ic }
      match requireApiKeyCheck cfg req with
      | some r => (st1, r)
      | none =>
        match validateOriginCheck cfg refererOrigin req with
        | some r => (st1, r)
        | none => registerHandler bcryptHash newId now st1 req

/-- Handler body of POST /api/login.  `bcryptVerify` abstracts
`passwordUtils.verify` (bcrypt.compare). -/
def loginHandler (bcryptVerify : Str → Str → Bool) (st : ServerState)
    (req : ApiReq) : ServerState × Resp :=
  let username := jsToLower (jsTrim ((req.username).getD ((req.email).getD [])))
  if username = [] || optFalsy req.password then
    (st, resp400 msgUserPassRequired)
  else
    match getUserByUsername st.users username with
    | none => (st, { status := 401, message := some msgInvalidCredentials })
    | some user =>
      if !(bcryptVerify ((req.password).getD []) user.password) then
        (st, { status := 401, message := some msgInvalidCredentials })
      else
        let role := jsOrS user.role "user".data
        (st, { status := 200,
               user := some ⟨user.id, user.username, role⟩,
               token := some (Token.access user.id user.username role),
               refreshToken := some (Token.refresh user.id),
               message := some msgLoginSuccess })

/-- POST /api/login behind the app-level `rateLimitByUser`. -/
def loginEndpoint (bcryptVerify : Str → Str → Bool) (now : Nat)
    (st : ServerState) (req : ApiReq) : ServerState × Resp :=
  match rateLimitByUserStep 100 900000 now st.userCounts req with
  | (uc, some r) => ({ st with userCounts := uc }, r)
  | (uc, none) => loginHandler bcryptVerify { st with userCounts := uc } req

/-- Handler body of POST /api/waitlist.  `verTok` abstracts the random
`generateVerificationToken()` draw, `newId` the random entry id. -/
def waitlistHandler (sha256hex : Str → Str) (verTok newId : Str) (now : Nat)
    (st : ServerState) (req : ApiReq) : ServerState × Resp :=
  if !(insertWaitlistSchemaOk req.name req.email) then
    (st, resp400 msgInvalidInput)
  else
    let email := (req.email).getD []
    match assocGet st.waitlist email with
    | some _ => (st, resp409 msgEmailRegistered)
    | none =>
      let hashedToken := hashVerificationToken sha256hex verTok
      let expires := createVerificationExpiry now
      let entryData : WInsert :=
        { name := (req.name).getD [], email := email,
          interests := req.interests, emailVerified := none,
          emailVerificationToken := some hashedToken,
          emailVerificationExpires := some expires }
      let created := createWaitlistEntry newId now entryData st.waitlist
      ({ st with waitlist := created.1 },
        { status := 201, id := some created.2.id, name := some created.2.name,
          email := some created.2.email, message := some msgWaitlistCheck })

/-- POST /api/waitlist with its full middleware chain, in source order. -/
def waitlistEndpoint (cfg : Config) (refererOrigin : Str → Option Str)
    (sha256hex : Str → Str) (verTok newId : Str) (now : Nat)
    (st : ServerState) (req : ApiReq) : ServerState × Resp :=
  match rateLimitByUserStep 100 900000 now st.userCounts req with
  | (uc, some r) => ({ st with userCounts := uc }, r)
  | (uc, none) =>
    match strictRateLimitByIPStep 10 3600000 now st.ipCounts req with
    | (ic, some r) => ({ st with userCounts := uc, ipCounts := ic }, r)
    | (ic, none) =>
      let st1 := { st with userCounts := uc, ipCounts := ic }
      match requireApiKeyCheck cfg req with
      | some r => (st1, r)
      | none =>
        match validateOriginCheck cfg refererOrigin req with
        | some r => (st1, r)
        | none => waitlistHandler sha256hex verTok newId now st1 req

/-- GET /api/verify-waitlist.  A throw from `verifyTokenHash` (length
mismatch, see C4) is caught by the route and propagated to the error
handler, modelled as a 500 response. -/
def verifyWaitlistHandler (sha256hex : Str → Str) (now : Nat)
    (st : ServerState) (req : ApiReq) : ServerState × Resp :=
  if optFalsy req.token || optFalsy req.email then
    (st, resp400 msgTokenEmailRequired)
  else
    let email := (req.email).getD []
    let token := (req.token).getD []
    match assocGet st.waitlist email with
    | none => (st, resp404 msgInvalidVerificationLink)
    | some entry =>
      match entry.emailVerificationToken with
      | none => (st, resp404 msgInvalidVerificationLink)
      | some stored =>
        if stored = [] then (st, resp404 msgInvalidVerificationLink)
        else
          match verifyTokenHash sha256hex token stored with
          | Except.error e => (st, resp500 e)
          | Except.ok false => (st, resp400 msgInvalidVerificationToken)
          | Except.ok true =>
            match entry.emailVerificationExpires with
            | some exp =>
              if isVerificationExpired now exp then
                (st, resp400 msgVerificationExpired)
              else
                ({ st with waitlist :=
                    updateWaitlistVerification email true none none now st.waitlist },
                  { status := 200, message := some msgWaitlistVerified })
            | none =>
              ({ st with waitlist :=
                  updateWaitlistVerification email true none none now st.waitlist },
                { status := 200, message := some msgWaitlistVerified })

/-- GET /api/verify-registration: the same state machine over the users
store (the lookup is `getUserByUsername(email)`). -/
def verifyRegistrationHandler (sha256hex : Str → Str) (now : Nat)
    (st : ServerState) (req : ApiReq) : ServerState × Resp :=
  if optFalsy req.token || optFalsy req.email then
    (st, resp400 msgTokenEmailRequired)
  else
    let email := (req.email).getD []
    let token := (req.token).getD []
    match getUserByUsername st.users email with
    | none => (st, resp404 msgInvalidVerificationLink)
    | some user =>
      match user.emailVerificationToken with
      | none => (st, resp404 msgInvalidVerificationLink)
      | some stored =>
        if stored = [] then (st, resp404 msgInvalidVerificationLink)
        else
          match verifyTokenHash sha256hex token stored with
          | Except.error e => (st, resp500 e)
          | Except.ok false => (st, resp400 msgInvalidVerificationToken)
          | Except.ok true =>
            match user.emailVerificationExpires with
            | some exp =>
              if isVerificationExpired now exp then
                (st, resp400 msgVerificationExpired)
              else
                ({ st with users :=
                    updateUserVerification email true none none now st.users },
                  { status := 200, message := some msgRegVerified })
            | none =>
              ({ st with users :=
                  updateUserVerification email true none none now st.users },
                { status := 200, message := some msgRegVerified })

/-- Concrete SHA-256 stand-in for witnesses: a constant 64-character
digest. -/
def wDigest : Str → Str := fun _ => List.replicate 64 '0'

/-- Witness fixture: a pending waitlist entry. -/
def wEntryFix : WEntry :=
  { id := "w1".data, email := "a@b.cc".data, name := "N".data,
    emailVerificationToken := some (List.replicate 64 '0'),
    emailVerificationExpires := some 100 }

/-- Witness fixture: a pending registered user. -/
def wUserFix : User :=
  { id := "u1".data, username := "u@v.ww".data, password := "h".data,
    role := "user".data,
    emailVerificationToken := some (List.replicate 64 '0'),
    emailVerificationExpires := some 100 }

/-- Witness fixture: a server state holding both pending records. -/
def wStateFix : ServerState :=
  { users := [wUserFix], waitlist := [("a@b.cc".data, wEntryFix)] }

/-- Witness fixture: the input the waitlist route would build, including a
hashed token and expiry that `MemStorage` then discards. -/
def wInputFix : WInsert :=
  { name := "N".data, email := "w@x.yy".data,
    emailVerificationToken := some "deadbeef".data,
    emailVerificationExpires := some 999 }

/-- Witness fixture: what `MemStorage.createWaitlistEntry` actually
stores for `wInputFix` — null verification fields. -/
def wCreatedFix : WEntry :=
  { id := "w2".data, email := "w@x.yy".data, name := "N".data,
    interests := none, createdAt := 5 }

/-- Witness fixture: the state after creating `wInputFix` in MemStorage. -/
def wState2Fix : ServerState := { waitlist := [("w@x.yy".data, wCreatedFix)] }

@[simp] theorem assocGet_assocSet_self {α : Type} (m : AssocMap α) (k : Str) (v : α) :
    assocGet (assocSet m k v) k = some v := by
  induction m with
  | nil => simp [assocGet, assocSet]
  | cons hd tl ih =>
    obtain ⟨k2, w⟩ := hd
    by_cases h : k2 = k
    · simp [assocGet, assocSet, h]
    · simp [assocGet, assocSet, h, ih]

@[simp] theorem assocGet_assocSet_ne {α : Type} (m : AssocMap α) (k k2 : Str) (v : α)
    (h : k ≠ k2) : assocGet (assocSet m k v) k2 = assocGet m k2 := by
  induction m with
  | nil => simp [assocGet, assocSet, h]
  | cons hd tl ih =>
    obtain ⟨k3, w⟩ := hd
    by_cases h3 : k3 = k
    · subst h3
      simp [assocGet, assocSet, h]
    · simp [assocGet, assocSet, h3, ih]

@[simp] theorem assocSet_assocSet {α : Type} (m : AssocMap α) (k : Str) (v w : α) :
    assocSet (assocSet m k v) k w = assocSet m k w := by
  induction m with
  | nil => simp [assocSet]
  | cons hd tl ih =>
    obtain ⟨k2, u⟩ := hd
    by_cases h : k2 = k
    · simp [assocSet, h]
    · simp [assocSet, h, ih]

/-- C3 counterexample: at the exact reset instant `now = windowResetAt` the
limiter does NOT reset (the source tests `now > resetTime`, strictly): with
`count = maxRequests = 5` it returns Denied, and the computed
`retryAfterSeconds` is `ceil((resetTime - now)/1000) = 0`, not strictly
positive — both contrary to the claim, which predicts a reset to `count = 1`
and Allowed whenever `now >= windowResetAt`. -/
theorem checkAndIncrement_reset_boundary_cex :
    checkAndIncrement [(['k'], Counter.mk 5 60000)] ['k'] 60000 5 60000
      = ([(['k'], Counter.mk 5 60000)], RateResult.denied 0) ∧
    (checkAndIncrement [(['k'], Counter.mk 5 60000)] ['k'] 60000 5 60000).2
      ≠ RateResult.allowed := by
  constructor
  · decide
  · decide

/-- C3 (amended): the fixed-window limiter resets `count` to 1 and returns
Allowed on the first request for a key or when `now > windowResetAt`
(strictly after the reset time); otherwise, while `count < maxRequests` it
increments and returns Allowed, and otherwise returns Denied with
`retryAfterSeconds = ceil((windowResetAt - now)/1000)`, which is strictly
positive whenever `now < windowResetAt` and zero at `now = windowResetAt`.
With `maxRequests = 5`, `windowDuration = 60s`, five calls with the same key
strictly inside the window are Allowed, the sixth is Denied with a strictly
positive retry-after, and once `now` passes `windowResetAt` the next call is
Allowed with the count reset to 1. -/
theorem checkAndIncrement_spec :
    (∀ (m : RateMap) (k : Str) (now maxR w : Nat),
      (assocGet m k = none →
        checkAndIncrement m k now maxR w
          = (assocSet m k ⟨1, now + w⟩, RateResult.allowed)) ∧
      (∀ c, assocGet m k = some c →
        (c.resetTime < now →
          checkAndIncrement m k now maxR w
            = (assocSet m k ⟨1, now + w⟩, RateResult.allowed)) ∧
        (now ≤ c.resetTime → c.count < maxR →
          checkAndIncrement m k now maxR w
            = (assocSet m k ⟨c.count + 1, c.resetTime⟩, RateResult.allowed)) ∧
        (now ≤ c.resetTime → maxR ≤ c.count →
          checkAndIncrement m k now maxR w
            = (m, RateResult.denied ((c.resetTime - now + 999) / 1000)) ∧
          (now < c.resetTime → 0 < (c.resetTime - now + 999) / 1000) ∧
          (now = c.resetTime → (c.resetTime - now + 999) / 1000 = 0)))) ∧
    (∀ (k : Str) (m0 : RateMap) (n1 n2 n3 n4 n5 n6 n7 : Nat),
      assocGet m0 k = none →
      n2 ≤ n1 + 60000 → n3 ≤ n1 + 60000 → n4 ≤ n1 + 60000 → n5 ≤ n1 + 60000 →
      n6 < n1 + 60000 → n1 + 60000 < n7 →
      checkAndIncrement m0 k n1 5 60000
        = (assocSet m0 k ⟨1, n1 + 60000⟩, RateResult.allowed) ∧
      checkAndIncrement (assocSet m0 k ⟨1, n1 + 60000⟩) k n2 5 60000
        = (assocSet m0 k ⟨2, n1 + 60000⟩, RateResult.allowed) ∧
      checkAndIncrement (assocSet m0 k ⟨2, n1 + 60000⟩) k n3 5 60000
        = (assocSet m0 k ⟨3, n1 + 60000⟩, RateResult.allowed) ∧
      checkAndIncrement (assocSet m0 k ⟨3, n1 + 60000⟩) k n4 5 60000
        = (assocSet m0 k ⟨4, n1 + 60000⟩, RateResult.allowed) ∧
      checkAndIncrement (assocSet m0 k ⟨4, n1 + 60000⟩) k n5 5 60000
        = (assocSet m0 k ⟨5, n1 + 60000⟩, RateResult.allowed) ∧
      checkAndIncrement (assocSet m0 k ⟨5, n1 + 60000⟩) k n6 5 60000
        = (assocSet m0 k ⟨5, n1 + 60000⟩,
            RateResult.denied ((n1 + 60000 - n6 + 999) / 1000)) ∧
      0 < (n1 + 60000 - n6 + 999) / 1000 ∧
      checkAndIncrement (assocSet m0 k ⟨5, n1 + 60000⟩) k n7 5 60000
        = (assocSet m0 k ⟨1, n7 + 60000⟩, RateResult.allowed)) := by
  constructor
  · intro m k now maxR w
    constructor
    · intro h
      simp [checkAndIncrement, h]
    · intro c hc
      refine ⟨?_, ?_, ?_⟩
      · intro hgt
        simp [checkAndIncrement, hc, hgt]
      · intro hle hlt
        simp [checkAndIncrement, hc, show ¬ (c.resetTime < now) from by omega,
          show ¬ (maxR ≤ c.count) from by omega]
      · intro hle hge
        refine ⟨?_, ?_, ?_⟩
        · simp [checkAndIncrement, hc, show ¬ (c.resetTime < now) from by omega, hge]
        · intro hlt
          exact Nat.div_pos (by omega) (by omega)
        · intro heq
          simp [heq]
  · intro k m0 n1 n2 n3 n4 n5 n6 n7 h0 h2 h3 h4 h5 h6 h7
    refine ⟨by simp [checkAndIncrement, h0], ?_, ?_, ?_, ?_, ?_, ?_, ?_⟩
    · simp [checkAndIncrement, show ¬ (n1 + 60000 < n2) from by omega]
    · simp [checkAndIncrement, show ¬ (n1 + 60000 < n3) from by omega]
    · simp [checkAndIncrement, show ¬ (n1 + 60000 < n4) from by omega]
    · simp [checkAndIncrement, show ¬ (n1 + 60000 < n5) from by omega]
    · simp [checkAndIncrement, show ¬ (n1 + 60000 < n6) from by omega]
    · exact Nat.div_pos (by omega) (by omega)
    · simp [checkAndIncrement, h7]

/-- C3 witness: concrete runs of the amended theorem — a denial strictly
inside the window with retry-after 50 s, and a reset to count 1 after the
window has passed. -/
theorem checkAndIncrement_spec_witness :
    checkAndIncrement [(['k'], Counter.mk 5 60000)] ['k'] 10000 5 60000
      = ([(['k'], Counter.mk 5 60000)], RateResult.denied 50) ∧
    checkAndIncrement [(['k'], Counter.mk 5 60000)] ['k'] 70000 5 60000
      = ([(['k'], Counter.mk 1 130000)], RateResult.allowed) := by
  have hd := ((checkAndIncrement_spec.1 [(['k'], Counter.mk 5 60000)] ['k']
      10000 5 60000).2 (Counter.mk 5 60000) (by decide)).2.2 (by decide) (by decide)
  have hr := ((checkAndIncrement_spec.1 [(['k'], Counter.mk 5 60000)] ['k']
      70000 5 60000).2 (Counter.mk 5 60000) (by decide)).1 (by decide)
  constructor
  · simpa using hd.1
  · simpa using hr

/-- C4 (code bug in the source): `verifyTokenHash` only returns a boolean
when the stored hash has the same length as the recomputed 64-character
SHA-256 hex digest; for any stored hash of a different length (e.g. the
empty string) it throws instead of returning false, because the claimed
equal-length check does not exist in the source — `timingSafeEqual` is
called directly on the two buffers. -/
theorem verifyTokenHash_throws_on_length_mismatch :
    ∀ (sha256hex : Str → Str),
      (∀ t, (sha256hex t).length = 64) →
      (∃ e, verifyTokenHash sha256hex ['a'] [] = Except.error e) ∧
      (∀ t h, h.length ≠ 64 → ∃ e, verifyTokenHash sha256hex t h = Except.error e) ∧
      (∀ t h, h.length = 64 →
        verifyTokenHash sha256hex t h = Except.ok (sha256hex t == h)) := by
  intro d hd
  refine ⟨?_, ?_, ?_⟩
  · exact ⟨"Input buffers must have the same byte length".data,
      by simp [verifyTokenHash, hashVerificationToken, hd]⟩
  · intro t h hlen
    have hlen2 : ¬ (64 = h.length) := fun hc => hlen hc.symm
    exact ⟨"Input buffers must have the same byte length".data,
      by simp [verifyTokenHash, hashVerificationToken, hd, hlen2]⟩
  · intro t h hlen
    simp [verifyTokenHash, hashVerificationToken, hd, hlen]

/-- C4 witness: with a concrete 64-character digest function, the empty
stored hash makes `verifyTokenHash` throw, while a stored hash equal to the
digest compares successfully. -/
theorem verifyTokenHash_throws_witness :
    (∃ e, verifyTokenHash (fun _ => List.replicate 64 '0') ['a'] []
        = Except.error e) ∧
    verifyTokenHash (fun _ => List.replicate 64 '0') ['a'] (List.replicate 64 '0')
      = Except.ok true := by
  have h := verifyTokenHash_throws_on_length_mismatch
    (fun _ => List.replicate 64 '0') (fun t => by simp)
  refine ⟨h.1, ?_⟩
  have h2 := h.2.2 ['a'] (List.replicate 64 '0') (by simp)
  simpa using h2

theorem splitChar_not_mem (sep : Char) (s : Str) (h : sep ∉ s) :
    splitChar sep s = [s] := by
  induction s with
  | nil => simp [splitChar]
  | cons c rest ih =>
    have hc : ¬ (c = sep) := by
      intro hcs
      exact h (by simp [hcs])
    have hrest : sep ∉ rest := by
      intro hm
      exact h (by simp [hm])
    simp [splitChar, hc, ih hrest]

theorem splitChar_append (sep : Char) (s t : Str) (h : sep ∉ s) :
    splitChar sep (s ++ sep :: t) = s :: splitChar sep t := by
  induction s with
  | nil => simp [splitChar]
  | cons c rest ih =>
    have hc : ¬ (c = sep) := by
      intro hcs
      exact h (by simp [hcs])
    have hrest : sep ∉ rest := by
      intro hm
      exact h (by simp [hm])
    have hne : splitChar sep (rest ++ sep :: t) ≠ [] := by
      rw [ih hrest]
      simp
    cases hsp : splitChar sep (rest ++ sep :: t) with
    | nil => exact absurd hsp hne
    | cons a u =>
      have : a :: u = rest :: splitChar sep t := by rw [← hsp, ih hrest]
      cases this
      simp [splitChar, hc, hsp, ih hrest]

/-- C7 counterexample: the claim fails as stated.  With the digest function
instantiated (necessarily abstractly in this embedding) there is a record
that `hashPassword` can never produce — `"0:" + digest + ":x"`, which has
two colons while genuine records have a 32-hex-character salt and exactly
one colon — on which `verifyPassword` returns true, not false: the split
ignores everything after the second colon. -/
theorem verifyPassword_malformed_cex :
    ¬ (∀ (pbkdf2 : Str → Str → Str) (p r : Str),
        ¬ InHashImage pbkdf2 r → verifyPassword pbkdf2 p r = false) := by
  intro hclaim
  have hni : ¬ InHashImage (fun p s => p ++ s) ['0', ':', 'p', '0', ':', 'x'] := by
    rintro ⟨p', s', hlen, _, heq⟩
    have hl := congrArg List.length heq
    simp [hashPassword, hlen] at hl
    omega
  have hfalse := hclaim (fun p s => p ++ s) ['p'] ['0', ':', 'p', '0', ':', 'x'] hni
  have htrue : verifyPassword (fun p s => p ++ s) ['p'] ['0', ':', 'p', '0', ':', 'x']
      = true := by decide
  rw [hfalse] at htrue
  exact Bool.false_ne_true htrue

/-- C7 (amended): `verifyPassword` is a total boolean function (it never
throws), and it returns true exactly when the record's second
colon-separated field equals the digest recomputed with the record's first
colon-separated field as salt.  Every other record — a record with no colon,
or one whose digest field mismatches — yields false, indistinguishable from
a genuine password mismatch; but a record that embeds a correct salt/digest
pair followed by extra colon-separated junk is not produced by
`hashPassword` yet still verifies true. -/
theorem verifyPassword_total_characterization :
    ∀ (pbkdf2 : Str → Str → Str) (p r : Str),
      verifyPassword pbkdf2 p r = true ↔
        ∃ salt h rest, splitChar ':' r = salt :: h :: rest ∧ h = pbkdf2 p salt := by
  intro d p r
  unfold verifyPassword
  cases hs : splitChar ':' r with
  | nil => simp
  | cons a t =>
    cases t with
    | nil => simp
    | cons b t2 =>
      simp only [beq_iff_eq]
      constructor
      · intro hb
        exact ⟨a, b, t2, rfl, hb⟩
      · rintro ⟨s', h', r', heq, hh⟩
        injection heq with h1 h2
        injection h2 with h3 _
        rw [h3, hh, h1]

/-- C8: round-trip and salting properties of the PBKDF2 credential pair.
With colon-free salt and digest (always true of the hex encodings in the
source), `verifyPassword p (hashPassword p s)` is true; for distinct
passwords whose digests differ at the same salt (collision-freedom of
PBKDF2-SHA512), verification fails; and two hash calls with distinct drawn
salts — the per-call fresh randomness — produce distinct records. -/
theorem hashPassword_verifyPassword_props :
    ∀ (pbkdf2 : Str → Str → Str) (p p1 p2 q s s1 s2 : Str),
      (':' ∉ s → ':' ∉ pbkdf2 p s →
        verifyPassword pbkdf2 p (hashPassword pbkdf2 p s) = true) ∧
      (p1 ≠ p2 → ':' ∉ s → ':' ∉ pbkdf2 p2 s → pbkdf2 p1 s ≠ pbkdf2 p2 s →
        verifyPassword pbkdf2 p1 (hashPassword pbkdf2 p2 s) = false) ∧
      (s1 ≠ s2 → ':' ∉ s1 → ':' ∉ s2 →
        hashPassword pbkdf2 q s1 ≠ hashPassword pbkdf2 q s2) := by
  intro d p p1 p2 q s s1 s2
  refine ⟨?_, ?_, ?_⟩
  · intro hs hd
    have hsp : splitChar ':' (hashPassword d p s) = s :: [d p s] := by
      rw [hashPassword, splitChar_append ':' s (d p s) hs, splitChar_not_mem ':' _ hd]
    simp [verifyPassword, hsp]
  · intro hne hs hd hdne
    have hsp : splitChar ':' (hashPassword d p2 s) = s :: [d p2 s] := by
      rw [hashPassword, splitChar_append ':' s (d p2 s) hs, splitChar_not_mem ':' _ hd]
    simp only [verifyPassword, hsp, beq_eq_false_iff_ne, ne_eq]
    exact fun hc => hdne hc.symm
  · intro hne hs1 hs2 heq
    have h1 : splitChar ':' (hashPassword d q s1) = s1 :: splitChar ':' (d q s1) := by
      rw [hashPassword, splitChar_append ':' s1 (d q s1) hs1]
    have h2 : splitChar ':' (hashPassword d q s2) = s2 :: splitChar ':' (d q s2) := by
      rw [hashPassword, splitChar_append ':' s2 (d q s2) hs2]
    have := congrArg (fun l => (splitChar ':' l).head?) heq
    simp only [h1, h2, List.head?] at this
    exact hne (Option.some.inj this)

/-- C8 witness: the three properties at a concrete digest function, with
the round trip succeeding, a different password failing, and two salts
giving two different stored records. -/
theorem hashPassword_verifyPassword_props_witness :
    verifyPassword (fun p s => p ++ s) ['a']
      (hashPassword (fun p s => p ++ s) ['a'] ['0']) = true ∧
    verifyPassword (fun p s => p ++ s) ['a']
      (hashPassword (fun p s => p ++ s) ['b'] ['0']) = false ∧
    hashPassword (fun p s => p ++ s) ['a'] ['0']
      ≠ hashPassword (fun p s => p ++ s) ['a'] ['1'] := by
  have h := hashPassword_verifyPassword_props (fun p s => p ++ s)
    ['a'] ['a'] ['b'] ['a'] ['0'] ['0'] ['1']
  exact ⟨h.1 (by decide) (by decide),
    h.2.1 (by decide) (by decide) (by decide) (by decide),
    h.2.2 (by decide) (by decide) (by decide)⟩

theorem optFalsy_some_ne (s : Str) (h : s ≠ []) : optFalsy (some s) = false := by
  cases s with
  | nil => exact absurd rfl h
  | cons c r => rfl

theorem find?_append_of_none {α : Type} (l1 l2 : List α) (p : α → Bool)
    (h : l1.find? p = none) : (l1 ++ l2).find? p = l2.find? p := by
  induction l1 with
  | nil => simp
  | cons a t ih =>
    by_cases hp : p a
    · rw [List.find?_cons_of_pos _ hp] at h
      exact absurd h (by simp)
    · rw [List.find?_cons_of_neg _ hp] at h
      show (a :: (t ++ l2)).find? p = l2.find? p
      rw [List.find?_cons_of_neg _ hp]
      exact ih h

theorem checkAndIncrement_allowed_counter (m : RateMap) (k : Str) (now maxR w : Nat)
    (h : (checkAndIncrement m k now maxR w).2 = RateResult.allowed) :
    (assocGet m k = none →
      assocGet (checkAndIncrement m k now maxR w).1 k = some ⟨1, now + w⟩) ∧
    (∀ c, assocGet m k = some c → now ≤ c.resetTime →
      assocGet (checkAndIncrement m k now maxR w).1 k
        = some ⟨c.count + 1, c.resetTime⟩) ∧
    (∀ c, assocGet m k = some c → c.resetTime < now →
      assocGet (checkAndIncrement m k now maxR w).1 k = some ⟨1, now + w⟩) := by
  refine ⟨?_, ?_, ?_⟩
  · intro h0
    simp [checkAndIncrement, h0]
  · intro c hc hle
    by_cases hge : maxR ≤ c.count
    · exfalso
      simp [checkAndIncrement, hc, show ¬ (c.resetTime < now) from by omega, hge] at h
    · simp [checkAndIncrement, hc, show ¬ (c.resetTime < now) from by omega, hge]
  · intro c hc hgt
    simp [checkAndIncrement, hc, hgt]

theorem registerEndpoint_success_eq
    (cfg : Config) (refererOrigin : Str → Option Str) (bcryptHash : Str → Str)
    (newId : Str) (now : Nat) (st : ServerState) (req : ApiReq) (p : Str)
    (uc ic : RateMap)
    (hue : checkAndIncrement st.userCounts (userKey req) now 100 900000
      = (uc, RateResult.allowed))
    (hie : checkAndIncrement st.ipCounts (ipKey req) now 5 3600000
      = (ic, RateResult.allowed))
    (hkey : requireApiKeyCheck cfg req = none)
    (horig : validateOriginCheck cfg refererOrigin req = none)
    (hp : req.password = some p)
    (hschema : insertUserSchemaOk
      (jsToLower (jsTrim ((req.username).getD ((req.email).getD [])))) (some p) = true)
    (hnouser : getUserByUsername st.users
      (jsToLower (jsTrim ((req.username).getD ((req.email).getD [])))) = none) :
    registerEndpoint cfg refererOrigin bcryptHash newId now st req
      = ({ st with userCounts := uc, ipCounts := ic,
                   users := st.users ++
                     [{ id := newId,
                        username := jsToLower (jsTrim ((req.username).getD ((req.email).getD []))),
                        password := bcryptHash p, role := "user".data,
                        emailVerified := none, emailVerificationToken := none,
                        emailVerificationExpires := none, createdAt := now,
                        updatedAt := now }] },
         { status := 201,
           user := some ⟨newId,
             jsToLower (jsTrim ((req.username).getD ((req.email).getD []))),
             "user".data⟩,
           token := some (Token.access newId
             (jsToLower (jsTrim ((req.username).getD ((req.email).getD []))))
             "user".data),
           message := some msgRegSuccess }) := by
  have hrole : jsOrS "user".data "user".data = "user".data := by decide
  simp [registerEndpoint, rateLimitByUserStep, strictRateLimitByIPStep,
    hue, hie, hkey, horig, registerHandler, hschema, hnouser, hp,
    createUser, generateToken, hrole]

theorem registerEndpoint_invalid_input_eq
    (cfg : Config) (refererOrigin : Str → Option Str) (bcryptHash : Str → Str)
    (newId : Str) (now : Nat) (st : ServerState) (req : ApiReq)
    (uc ic : RateMap)
    (hue : checkAndIncrement st.userCounts (userKey req) now 100 900000
      = (uc, RateResult.allowed))
    (hie : checkAndIncrement st.ipCounts (ipKey req) now 5 3600000
      = (ic, RateResult.allowed))
    (hkey : requireApiKeyCheck cfg req = none)
    (horig : validateOriginCheck cfg refererOrigin req = none)
    (hschema : insertUserSchemaOk
      (jsToLower (jsTrim ((req.username).getD ((req.email).getD []))))
      req.password = false) :
    registerEndpoint cfg refererOrigin bcryptHash newId now st req
      = ({ st with userCounts := uc, ipCounts := ic }, resp400 msgInvalidInput) := by
  simp [registerEndpoint, rateLimitByUserStep, strictRateLimitByIPStep,
    hue, hie, hkey, horig, registerHandler, hschema]

/-- C1 counterexample: on a fresh state, a register request with NO
x-api-key header is rejected with 401, yet the IP rate-limit counter for
that client is created and set to 1 — the IP limiter runs BEFORE the API
key check in the source middleware chain, so the rejected request did
consume quota, contrary to the claim. -/
theorem register_rejected_key_consumes_ip_quota_cex :
    (registerEndpoint ⟨"secret-key".data, [], false⟩ (fun _ => none)
        (fun p => p) "u1".data 0 {} { ip := "1.2.3.4".data }).2
      = resp401ApiKey ∧
    assocGet (registerEndpoint ⟨"secret-key".data, [], false⟩ (fun _ => none)
        (fun p => p) "u1".data 0 {} { ip := "1.2.3.4".data }).1.ipCounts
      "1.2.3.4".data = some ⟨1, 3600000⟩ ∧
    assocGet ({} : ServerState).ipCounts "1.2.3.4".data = none := by
  refine ⟨by decide, by decide, by decide⟩

/-- C1 (amended): on the public registration endpoint the source applies
the IP rate limit BEFORE the API key check; a request whose API key check
fails (absent header → 401, wrong key → 403) has already passed through the
IP limiter, whose counter for that client is consumed (initialized to 1,
incremented, or reset), and no user is created. -/
theorem register_rate_limit_before_api_key :
    ∀ (cfg : Config) (refererOrigin : Str → Option Str) (bcryptHash : Str → Str)
      (newId : Str) (now : Nat) (st : ServerState) (req : ApiReq),
      (checkAndIncrement st.userCounts (userKey req) now 100 900000).2
        = RateResult.allowed →
      (checkAndIncrement st.ipCounts (ipKey req) now 5 3600000).2
        = RateResult.allowed →
      req.xApiKey ≠ some cfg.apiKey →
      let out := registerEndpoint cfg refererOrigin bcryptHash newId now st req
      out.2 = (if optFalsy req.xApiKey then resp401ApiKey else resp403ApiKey) ∧
      out.1.ipCounts = (checkAndIncrement st.ipCounts (ipKey req) now 5 3600000).1 ∧
      out.1.users = st.users ∧
      (assocGet st.ipCounts (ipKey req) = none →
        assocGet out.1.ipCounts (ipKey req) = some ⟨1, now + 3600000⟩) ∧
      (∀ c, assocGet st.ipCounts (ipKey req) = some c → now ≤ c.resetTime →
        assocGet out.1.ipCounts (ipKey req) = some ⟨c.count + 1, c.resetTime⟩) := by
  intro cfg refererOrigin bcryptHash newId now st req hu hi hk
  have hcu := checkAndIncrement_allowed_counter st.ipCounts (ipKey req) now 5 3600000 hi
  cases hue : checkAndIncrement st.userCounts (userKey req) now 100 900000 with
  | mk uc ur =>
    rw [hue] at hu
    simp only at hu
    subst hu
    cases hie : checkAndIncrement st.ipCounts (ipKey req) now 5 3600000 with
    | mk ic ir =>
      rw [hie] at hi
      simp only at hi
      subst hi
      have hout : registerEndpoint cfg refererOrigin bcryptHash newId now st req
          = ({ st with userCounts := uc, ipCounts := ic },
             if optFalsy req.xApiKey then resp401ApiKey else resp403ApiKey) := by
        by_cases hf : optFalsy req.xApiKey
        · simp [registerEndpoint, rateLimitByUserStep, strictRateLimitByIPStep,
            hue, hie, requireApiKeyCheck, hf]
        · simp [registerEndpoint, rateLimitByUserStep, strictRateLimitByIPStep,
            hue, hie, requireApiKeyCheck, hf, hk]
      rw [hie] at hcu
      simp only [hout]
      exact ⟨trivial, trivial, trivial, hcu.1, hcu.2.1⟩

/-- C1 witness: a wrong API key on a fresh state is rejected with 403 while
the IP counter has been initialized to 1. -/
theorem register_rate_limit_before_api_key_witness :
    (registerEndpoint ⟨"secret".data, [], false⟩ (fun _ => none) (fun p => p)
        "u1".data 0 {} { ip := "9.9.9.9".data, xApiKey := some "bad".data }).2
      = resp403ApiKey ∧
    assocGet (registerEndpoint ⟨"secret".data, [], false⟩ (fun _ => none)
        (fun p => p) "u1".data 0 {}
        { ip := "9.9.9.9".data, xApiKey := some "bad".data }).1.ipCounts
      "9.9.9.9".data = some ⟨1, 3600000⟩ := by
  have h := register_rate_limit_before_api_key ⟨"secret".data, [], false⟩
    (fun _ => none) (fun p => p) "u1".data 0 {}
    { ip := "9.9.9.9".data, xApiKey := some "bad".data }
    (by decide) (by decide) (by decide)
  refine ⟨?_, ?_⟩
  · have h1 := h.1
    simpa using h1
  · have h4 := h.2.2.2.1 (by decide)
    simpa using h4

/-- C2 counterexample: a concrete fully successful registration returns 201
with the user and an access token, but its body contains NO refresh token,
contrary to the claim (only login and refresh issue refresh tokens). -/
theorem register_success_missing_refresh_cex :
    (registerEndpoint ⟨"k".data, [], false⟩ (fun _ => none) (fun p => p)
        "u1".data 0 {}
        { ip := "1.2.3.4".data, xApiKey := some "k".data,
          username := some "A@b.co".data, password := some "secret1".data }).2.status
      = 201 ∧
    (registerEndpoint ⟨"k".data, [], false⟩ (fun _ => none) (fun p => p)
        "u1".data 0 {}
        { ip := "1.2.3.4".data, xApiKey := some "k".data,
          username := some "A@b.co".data, password := some "secret1".data }).2.token
      = some (Token.access "u1".data "a@b.co".data "user".data) ∧
    (registerEndpoint ⟨"k".data, [], false⟩ (fun _ => none) (fun p => p)
        "u1".data 0 {}
        { ip := "1.2.3.4".data, xApiKey := some "k".data,
          username := some "A@b.co".data, password := some "secret1".data }).2.refreshToken
      = none := by
  refine ⟨by decide, by decide, by decide⟩

/-- C2 (amended): every successful registration responds 201 with a body
containing the created user id, the normalized username, the default role
"user", an access token over those claims, and the message "Registration
successful" — but no refresh token; the created user is stored with the
bcrypt hash of the submitted password. -/
theorem register_success_response :
    ∀ (cfg : Config) (refererOrigin : Str → Option Str) (bcryptHash : Str → Str)
      (newId : Str) (now : Nat) (st : ServerState) (req : ApiReq) (p : Str),
      (checkAndIncrement st.userCounts (userKey req) now 100 900000).2
        = RateResult.allowed →
      (checkAndIncrement st.ipCounts (ipKey req) now 5 3600000).2
        = RateResult.allowed →
      requireApiKeyCheck cfg req = none →
      validateOriginCheck cfg refererOrigin req = none →
      req.password = some p →
      insertUserSchemaOk
        (jsToLower (jsTrim ((req.username).getD ((req.email).getD []))))
        req.password = true →
      getUserByUsername st.users
        (jsToLower (jsTrim ((req.username).getD ((req.email).getD [])))) = none →
      let un := jsToLower (jsTrim ((req.username).getD ((req.email).getD [])))
      let out := registerEndpoint cfg refererOrigin bcryptHash newId now st req
      out.2 = { status := 201,
                user := some ⟨newId, un, "user".data⟩,
                token := some (Token.access newId un "user".data),
                message := some msgRegSuccess } ∧
      out.2.refreshToken = none ∧
      getUserByUsername out.1.users un
        = some { id := newId, username := un, password := bcryptHash p,
                 role := "user".data, emailVerified := none,
                 emailVerificationToken := none, emailVerificationExpires := none,
                 createdAt := now, updatedAt := now } := by
  intro cfg refererOrigin bcryptHash newId now st req p hu hi hkey horig hp hschema hnouser
  cases hue : checkAndIncrement st.userCounts (userKey req) now 100 900000 with
  | mk uc ur =>
    rw [hue] at hu
    simp only at hu
    subst hu
    cases hie : checkAndIncrement st.ipCounts (ipKey req) now 5 3600000 with
    | mk ic ir =>
      rw [hie] at hi
      simp only at hi
      subst hi
      rw [hp] at hschema
      have hout := registerEndpoint_success_eq cfg refererOrigin bcryptHash newId
        now st req p uc ic hue hie hkey horig hp hschema hnouser
      refine ⟨by simp [hout], by simp [hout], ?_⟩
      rw [hout]
      simp only [getUserByUsername]
      rw [find?_append_of_none _ _ _ hnouser]
      simp [List.find?]

/-- C2 witness: parameters of the amended theorem at a concrete successful
registration. -/
theorem register_success_response_witness :
    (registerEndpoint ⟨"k".data, [], false⟩ (fun _ => none) (fun p => p)
        "u2".data 7 {}
        { ip := "5.6.7.8".data, xApiKey := some "k".data,
          username := some " Bob@Mail.org ".data,
          password := some "hunter77".data }).2
      = { status := 201,
          user := some ⟨"u2".data, "bob@mail.org".data, "user".data⟩,
          token := some (Token.access "u2".data "bob@mail.org".data "user".data),
          message := some msgRegSuccess } ∧
    (registerEndpoint ⟨"k".data, [], false⟩ (fun _ => none) (fun p => p)
        "u2".data 7 {}
        { ip := "5.6.7.8".data, xApiKey := some "k".data,
          username := some " Bob@Mail.org ".data,
          password := some "hunter77".data }).2.refreshToken = none := by
  have h := register_success_response ⟨"k".data, [], false⟩ (fun _ => none)
    (fun p => p) "u2".data 7 {}
    { ip := "5.6.7.8".data, xApiKey := some "k".data,
      username := some " Bob@Mail.org ".data, password := some "hunter77".data }
    "hunter77".data
    (by decide) (by decide) (by decide) (by decide) (by decide) (by decide) (by decide)
  refine ⟨?_, ?_⟩
  · have h1 := h.1
    simpa using h1
  · have h2 := h.2.1
    simpa using h2

/-- C9: before any core operation the registration username is trimmed,
lowercased and required to match the permissive email shape; the password
must be at least 6 characters with no maximum: with validation hypotheses
on the normalized username, a password of length < 6 (e.g. 5) is rejected
with 400 "Invalid input" and no user is created, while any password of
length ≥ 6 (e.g. 1000 characters) is accepted and stored hashed in full,
without truncation. -/
theorem register_validation_password_policy :
    ∀ (cfg : Config) (refererOrigin : Str → Option Str) (bcryptHash : Str → Str)
      (newId : Str) (now : Nat) (st : ServerState) (req : ApiReq) (p : Str),
      (checkAndIncrement st.userCounts (userKey req) now 100 900000).2
        = RateResult.allowed →
      (checkAndIncrement st.ipCounts (ipKey req) now 5 3600000).2
        = RateResult.allowed →
      requireApiKeyCheck cfg req = none →
      validateOriginCheck cfg refererOrigin req = none →
      req.password = some p →
      1 ≤ (jsToLower (jsTrim ((req.username).getD ((req.email).getD [])))).length →
      emailRegexTest (jsToLower (jsTrim ((req.username).getD ((req.email).getD []))))
        = true →
      getUserByUsername st.users
        (jsToLower (jsTrim ((req.username).getD ((req.email).getD [])))) = none →
      let un := jsToLower (jsTrim ((req.username).getD ((req.email).getD [])))
      let out := registerEndpoint cfg refererOrigin bcryptHash newId now st req
      (out.2 = if 6 ≤ p.length
          then { status := 201, user := some ⟨newId, un, "user".data⟩,
                 token := some (Token.access newId un "user".data),
                 message := some msgRegSuccess }
          else resp400 msgInvalidInput) ∧
      (6 ≤ p.length →
        getUserByUsername out.1.users un
          = some { id := newId, username := un, password := bcryptHash p,
                   role := "user".data, emailVerified := none,
                   emailVerificationToken := none,
                   emailVerificationExpires := none,
                   createdAt := now, updatedAt := now }) ∧
      (p.length < 6 → out.1.users = st.users) := by
  intro cfg refererOrigin bcryptHash newId now st req p hu hi hkey horig hp
    hlen hregex hnouser
  cases hue : checkAndIncrement st.userCounts (userKey req) now 100 900000 with
  | mk uc ur =>
    rw [hue] at hu
    simp only at hu
    subst hu
    cases hie : checkAndIncrement st.ipCounts (ipKey req) now 5 3600000 with
    | mk ic ir =>
      rw [hie] at hi
      simp only at hi
      subst hi
      by_cases h6 : 6 ≤ p.length
      · have hschema : insertUserSchemaOk
            (jsToLower (jsTrim ((req.username).getD ((req.email).getD []))))
            (some p) = true := by
          simp [insertUserSchemaOk, hlen, hregex, h6]
        have hout := registerEndpoint_success_eq cfg refererOrigin bcryptHash
          newId now st req p uc ic hue hie hkey horig hp hschema hnouser
        refine ⟨?_, ?_, ?_⟩
        · rw [hout]
          simp [h6]
        · intro _
          rw [hout]
          simp only [getUserByUsername]
          rw [find?_append_of_none _ _ _ hnouser]
          simp [List.find?]
        · intro hlt
          exact absurd h6 (by omega)
      · have hschema : insertUserSchemaOk
            (jsToLower (jsTrim ((req.username).getD ((req.email).getD []))))
            req.password = false := by
          rw [hp]
          simp [insertUserSchemaOk, h6]
        have hout := registerEndpoint_invalid_input_eq cfg refererOrigin
          bcryptHash newId now st req uc ic hue hie hkey horig hschema
        refine ⟨?_, ?_, ?_⟩
        · rw [hout]
          simp [h6]
        · intro hc
          exact absurd hc h6
        · intro _
          rw [hout]

/-- C9 witness: a 1000-character password registers successfully and is
stored in full, while a 5-character password is rejected with 400 "Invalid
input". -/
theorem register_validation_password_policy_witness :
    (registerEndpoint ⟨"k".data, [], false⟩ (fun _ => none) (fun x => x)
        "u9".data 3 {}
        { ip := "2.2.2.2".data, xApiKey := some "k".data,
          email := some "c@d.ee".data,
          password := some (List.replicate 1000 'a') }).2.status = 201 ∧
    getUserByUsername
      (registerEndpoint ⟨"k".data, [], false⟩ (fun _ => none) (fun x => x)
        "u9".data 3 {}
        { ip := "2.2.2.2".data, xApiKey := some "k".data,
          email := some "c@d.ee".data,
          password := some (List.replicate 1000 'a') }).1.users "c@d.ee".data
      = some { id := "u9".data, username := "c@d.ee".data,
               password := List.replicate 1000 'a', role := "user".data,
               emailVerified := none, emailVerificationToken := none,
               emailVerificationExpires := none, createdAt := 3,
               updatedAt := 3 } ∧
    (registerEndpoint ⟨"k".data, [], false⟩ (fun _ => none) (fun x => x)
        "u9".data 3 {}
        { ip := "2.2.2.2".data, xApiKey := some "k".data,
          email := some "c@d.ee".data,
          password := some "abcde".data }).2 = resp400 msgInvalidInput := by
  have h := register_validation_password_policy ⟨"k".data, [], false⟩
    (fun _ => none) (fun x => x) "u9".data 3 {}
    { ip := "2.2.2.2".data, xApiKey := some "k".data,
      email := some "c@d.ee".data, password := some (List.replicate 1000 'a') }
    (List.replicate 1000 'a')
    (by decide) (by decide) (by decide) (by decide) rfl
    (by decide) (by decide) (by decide)
  have h5 := register_validation_password_policy ⟨"k".data, [], false⟩
    (fun _ => none) (fun x => x) "u9".data 3 {}
    { ip := "2.2.2.2".data, xApiKey := some "k".data,
      email := some "c@d.ee".data, password := some "abcde".data }
    "abcde".data
    (by decide) (by decide) (by decide) (by decide) rfl
    (by decide) (by decide) (by decide)
  refine ⟨?_, ?_, ?_⟩
  · have h1 := h.1
    simp only [List.length_replicate] at h1
    rw [if_pos (by omega)] at h1
    rw [h1]
  · have h2 := h.2.1 (by simp)
    simpa using h2
  · have h51 := h5.1
    simpa using h51

/-- C5: on login, an unknown username and an existing username with a
wrong password produce literally identical responses — status 401 with the
single body field message "Invalid credentials" — so the response carries
no information about whether the identity exists. -/
theorem login_enumeration_parity :
    ∀ (bcryptVerify : Str → Str → Bool) (now1 now2 : Nat) (st : ServerState)
      (req1 req2 : ApiReq) (p2 : Str) (user : User),
      (checkAndIncrement st.userCounts (userKey req1) now1 100 900000).2
        = RateResult.allowed →
      (checkAndIncrement st.userCounts (userKey req2) now2 100 900000).2
        = RateResult.allowed →
      jsToLower (jsTrim ((req1.username).getD ((req1.email).getD []))) ≠ [] →
      optFalsy req1.password = false →
      jsToLower (jsTrim ((req2.username).getD ((req2.email).getD []))) ≠ [] →
      req2.password = some p2 → p2 ≠ [] →
      getUserByUsername st.users
        (jsToLower (jsTrim ((req1.username).getD ((req1.email).getD [])))) = none →
      getUserByUsername st.users
        (jsToLower (jsTrim ((req2.username).getD ((req2.email).getD []))))
        = some user →
      bcryptVerify p2 user.password = false →
      (loginEndpoint bcryptVerify now1 st req1).2
        = (loginEndpoint bcryptVerify now2 st req2).2 ∧
      (loginEndpoint bcryptVerify now1 st req1).2
        = { status := 401, message := some msgInvalidCredentials } := by
  intro bcryptVerify now1 now2 st req1 req2 p2 user hu1 hu2 hn1 hf1 hn2 hp2
    hp2ne hmiss hhit hv
  cases hue1 : checkAndIncrement st.userCounts (userKey req1) now1 100 900000 with
  | mk uc1 ur1 =>
    rw [hue1] at hu1
    simp only at hu1
    subst hu1
    cases hue2 : checkAndIncrement st.userCounts (userKey req2) now2 100 900000 with
    | mk uc2 ur2 =>
      rw [hue2] at hu2
      simp only at hu2
      subst hu2
      have e1 : (loginEndpoint bcryptVerify now1 st req1).2
          = { status := 401, message := some msgInvalidCredentials } := by
        simp [loginEndpoint, rateLimitByUserStep, hue1, loginHandler, hn1,
          hf1, hmiss]
      have e2 : (loginEndpoint bcryptVerify now2 st req2).2
          = { status := 401, message := some msgInvalidCredentials } := by
        simp [loginEndpoint, rateLimitByUserStep, hue2, loginHandler, hn2,
          hp2, optFalsy_some_ne p2 hp2ne, hhit, hv]
      exact ⟨by rw [e1, e2], e1⟩

/-- C5 witness: a concrete nonexistent-user login and a concrete
wrong-password login against a one-user store return byte-identical 401
"Invalid credentials" responses. -/
theorem login_enumeration_parity_witness :
    (loginEndpoint (fun _ _ => false) 0
        { users := [{ id := "u1".data, username := "e@f.gh".data,
                      password := "h".data, role := "user".data }] }
        { ip := "3.3.3.3".data, username := some "a@b.cd".data,
          password := some "x".data }).2
      = { status := 401, message := some msgInvalidCredentials } ∧
    (loginEndpoint (fun _ _ => false) 0
        { users := [{ id := "u1".data, username := "e@f.gh".data,
                      password := "h".data, role := "user".data }] }
        { ip := "3.3.3.3".data, username := some "e@f.gh".data,
          password := some "wrong".data }).2
      = { status := 401, message := some msgInvalidCredentials } := by
  have h := login_enumeration_parity (fun _ _ => false) 0 0
    { users := [{ id := "u1".data, username := "e@f.gh".data,
                  password := "h".data, role := "user".data }] }
    { ip := "3.3.3.3".data, username := some "a@b.cd".data,
      password := some "x".data }
    { ip := "3.3.3.3".data, username := some "e@f.gh".data,
      password := some "wrong".data }
    "wrong".data
    { id := "u1".data, username := "e@f.gh".data, password := "h".data,
      role := "user".data }
    (by decide) (by decide) (by decide) (by decide) (by decide) rfl
    (by decide) (by decide) (by decide) (by decide)
  exact ⟨h.2, by rw [← h.1]; exact h.2⟩

theorem getUserByUsername_updateVerified (l : List User) (email : Str) (u : User)
    (now : Nat) (h : getUserByUsername l email = some u) :
    getUserByUsername (updateUserVerification email true none none now l) email
      = some { u with emailVerified := some now, emailVerificationToken := none,
                      emailVerificationExpires := none } := by
  induction l with
  | nil => simp [getUserByUsername] at h
  | cons a t ih =>
    cases hpa : (a.username == email) with
    | true =>
      have ha : some a = some u := by
        simpa [getUserByUsername, List.find?, hpa] using h
      have hau : a = u := Option.some.inj ha
      subst hau
      simp [updateUserVerification, hpa, getUserByUsername, List.find?]
    | false =>
      have ht : getUserByUsername t email = some u := by
        simpa [getUserByUsername, List.find?, hpa] using h
      have hrec := ih ht
      simp only [getUserByUsername] at hrec
      simp [updateUserVerification, hpa, getUserByUsername, List.find?, hrec]

/-- C6: the verification-confirm endpoints distinguish their outcomes
exactly as claimed, on both the waitlist and the registration stores.
With token and email present: no pending (non-null) stored token hash →
404 "Invalid verification link"; stored hash differing from the token
digest → 400 "Invalid verification token" with the state unchanged; match
but now past the stored expiry → 400 "Verification link has expired" with
the state unchanged; otherwise the entry transitions to Verified
(emailVerified set, token and expiry cleared) with a 200 response.  The
three failure responses are pairwise distinct. -/
theorem verify_endpoints_state_machine :
    ∀ (d : Str → Str), (∀ t, (d t).length = 64) →
    ∀ (now : Nat) (st : ServerState)
      (req1 req2 req3 req4 : ApiReq) (tok1 tok2 tok3 tok4 : Str)
      (email1 email2 email3 email4 : Str) (entry : WEntry) (stored : Str)
      (exp : Nat) (user : User) (storedU : Str) (expU : Nat),
      req1.token = some tok1 → tok1 ≠ [] → req1.email = some email1 → email1 ≠ [] →
      (∀ e, assocGet st.waitlist email1 = some e → e.emailVerificationToken = none) →
      req2.token = some tok2 → tok2 ≠ [] → req2.email = some email2 → email2 ≠ [] →
      assocGet st.waitlist email2 = some entry →
      entry.emailVerificationToken = some stored → stored.length = 64 →
      entry.emailVerificationExpires = some exp →
      req3.token = some tok3 → tok3 ≠ [] → req3.email = some email3 → email3 ≠ [] →
      (∀ u, getUserByUsername st.users email3 = some u →
        u.emailVerificationToken = none) →
      req4.token = some tok4 → tok4 ≠ [] → req4.email = some email4 → email4 ≠ [] →
      getUserByUsername st.users email4 = some user →
      user.emailVerificationToken = some storedU → storedU.length = 64 →
      user.emailVerificationExpires = some expU →
      verifyWaitlistHandler d now st req1 = (st, resp404 msgInvalidVerificationLink) ∧
      verifyWaitlistHandler d now st req2
        = (if d tok2 = stored then
            (if exp < now then (st, resp400 msgVerificationExpired)
             else ({ st with waitlist :=
                      updateWaitlistVerification email2 true none none now st.waitlist },
                   { status := 200, message := some msgWaitlistVerified }))
           else (st, resp400 msgInvalidVerificationToken)) ∧
      (d tok2 = stored → ¬ (exp < now) →
        assocGet (verifyWaitlistHandler d now st req2).1.waitlist email2
          = some { entry with emailVerified := some now,
                              emailVerificationToken := none,
                              emailVerificationExpires := none }) ∧
      verifyRegistrationHandler d now st req3
        = (st, resp404 msgInvalidVerificationLink) ∧
      verifyRegistrationHandler d now st req4
        = (if d tok4 = storedU then
            (if expU < now then (st, resp400 msgVerificationExpired)
             else ({ st with users :=
                      updateUserVerification email4 true none none now st.users },
                   { status := 200, message := some msgRegVerified }))
           else (st, resp400 msgInvalidVerificationToken)) ∧
      (d tok4 = storedU → ¬ (expU < now) →
        getUserByUsername (verifyRegistrationHandler d now st req4).1.users email4
          = some { user with emailVerified := some now,
                             emailVerificationToken := none,
                             emailVerificationExpires := none }) ∧
      resp404 msgInvalidVerificationLink ≠ resp400 msgInvalidVerificationToken ∧
      resp400 msgInvalidVerificationToken ≠ resp400 msgVerificationExpired ∧
      resp404 msgInvalidVerificationLink ≠ resp400 msgVerificationExpired := by
  intro d hd now st req1 req2 req3 req4 tok1 tok2 tok3 tok4
    email1 email2 email3 email4 entry stored exp user storedU expU
    h1t h1tne h1e h1ene h1none
    h2t h2tne h2e h2ene hget2 hstore2 hstlen hexp2
    h3t h3tne h3e h3ene h3none
    h4t h4tne h4e h4ene hget4 hstore4 hstlenU hexp4
  have hne2 : ¬ (stored = []) := by
    intro hc
    rw [hc] at hstlen
    exact absurd hstlen (by decide)
  have hne4 : ¬ (storedU = []) := by
    intro hc
    rw [hc] at hstlenU
    exact absurd hstlenU (by decide)
  have hvth2 : verifyTokenHash d tok2 stored = Except.ok (d tok2 == stored) := by
    simp [verifyTokenHash, hashVerificationToken, hd, hstlen]
  have hvth4 : verifyTokenHash d tok4 storedU = Except.ok (d tok4 == storedU) := by
    simp [verifyTokenHash, hashVerificationToken, hd, hstlenU]
  have eW2 : verifyWaitlistHandler d now st req2
      = (if d tok2 = stored then
          (if exp < now then (st, resp400 msgVerificationExpired)
           else ({ st with waitlist :=
                    updateWaitlistVerification email2 true none none now st.waitlist },
                 { status := 200, message := some msgWaitlistVerified }))
         else (st, resp400 msgInvalidVerificationToken)) := by
    by_cases hm : d tok2 = stored
    · by_cases hx : exp < now
      · rw [if_pos hm, if_pos hx]
        simp [verifyWaitlistHandler, h2t, h2e, optFalsy_some_ne _ h2tne,
          optFalsy_some_ne _ h2ene, hget2, hstore2, hne2, hvth2, hm, hexp2,
          isVerificationExpired, hx]
      · rw [if_pos hm, if_neg hx]
        simp [verifyWaitlistHandler, h2t, h2e, optFalsy_some_ne _ h2tne,
          optFalsy_some_ne _ h2ene, hget2, hstore2, hne2, hvth2, hm, hexp2,
          isVerificationExpired, hx]
    · rw [if_neg hm]
      have hbeq : (d tok2 == stored) = false := beq_eq_false_iff_ne.mpr hm
      simp [verifyWaitlistHandler, h2t, h2e, optFalsy_some_ne _ h2tne,
        optFalsy_some_ne _ h2ene, hget2, hstore2, hne2, hvth2, hbeq]
  have eU4 : verifyRegistrationHandler d now st req4
      = (if d tok4 = storedU then
          (if expU < now then (st, resp400 msgVerificationExpired)
           else ({ st with users :=
                    updateUserVerification email4 true none none now st.users },
                 { status := 200, message := some msgRegVerified }))
         else (st, resp400 msgInvalidVerificationToken)) := by
    by_cases hm : d tok4 = storedU
    · by_cases hx : expU < now
      · rw [if_pos hm, if_pos hx]
        simp [verifyRegistrationHandler, h4t, h4e, optFalsy_some_ne _ h4tne,
          optFalsy_some_ne _ h4ene, hget4, hstore4, hne4, hvth4, hm, hexp4,
          isVerificationExpired, hx]
      · rw [if_pos hm, if_neg hx]
        simp [verifyRegistrationHandler, h4t, h4e, optFalsy_some_ne _ h4tne,
          optFalsy_some_ne _ h4ene, hget4, hstore4, hne4, hvth4, hm, hexp4,
          isVerificationExpired, hx]
    · rw [if_neg hm]
      have hbeq : (d tok4 == storedU) = false := beq_eq_false_iff_ne.mpr hm
      simp [verifyRegistrationHandler, h4t, h4e, optFalsy_some_ne _ h4tne,
        optFalsy_some_ne _ h4ene, hget4, hstore4, hne4, hvth4, hbeq]
  refine ⟨?_, eW2, ?_, ?_, eU4, ?_, by decide, by decide, by decide⟩
  · cases hent : assocGet st.waitlist email1 with
    | none =>
      simp [verifyWaitlistHandler, h1t, h1e, optFalsy_some_ne _ h1tne,
        optFalsy_some_ne _ h1ene, hent]
    | some e =>
      have := h1none e hent
      simp [verifyWaitlistHandler, h1t, h1e, optFalsy_some_ne _ h1tne,
        optFalsy_some_ne _ h1ene, hent, this]
  · intro hm hx
    rw [eW2, if_pos hm, if_neg hx]
    simp [updateWaitlistVerification, hget2]
  · cases hent : getUserByUsername st.users email3 with
    | none =>
      simp [verifyRegistrationHandler, h3t, h3e, optFalsy_some_ne _ h3tne,
        optFalsy_some_ne _ h3ene, hent]
    | some u =>
      have := h3none u hent
      simp [verifyRegistrationHandler, h3t, h3e, optFalsy_some_ne _ h3tne,
        optFalsy_some_ne _ h3ene, hent, this]
  · intro hm hx
    rw [eU4, if_pos hm, if_neg hx]
    simp only []
    exact getUserByUsername_updateVerified st.users email4 user now hget4

/-- C6 witness: concrete runs of the state machine — a 404 for an email
with no pending verification, and a 200 transition to Verified for a
matching unexpired token, on both endpoints. -/
theorem verify_endpoints_state_machine_witness :
    verifyWaitlistHandler wDigest 50 wStateFix
      { token := some "t".data, email := some "x@y.zz".data }
      = (wStateFix, resp404 msgInvalidVerificationLink) ∧
    (verifyWaitlistHandler wDigest 50 wStateFix
      { token := some "t".data, email := some "a@b.cc".data }).2
      = { status := 200, message := some msgWaitlistVerified } ∧
    verifyRegistrationHandler wDigest 50 wStateFix
      { token := some "t".data, email := some "q@r.ss".data }
      = (wStateFix, resp404 msgInvalidVerificationLink) ∧
    (verifyRegistrationHandler wDigest 50 wStateFix
      { token := some "t".data, email := some "u@v.ww".data }).2
      = { status := 200, message := some msgRegVerified } := by
  have h := verify_endpoints_state_machine wDigest (fun t => by simp [wDigest])
    50 wStateFix
    { token := some "t".data, email := some "x@y.zz".data }
    { token := some "t".data, email := some "a@b.cc".data }
    { token := some "t".data, email := some "q@r.ss".data }
    { token := some "t".data, email := some "u@v.ww".data }
    "t".data "t".data "t".data "t".data
    "x@y.zz".data "a@b.cc".data "q@r.ss".data "u@v.ww".data
    wEntryFix (List.replicate 64 '0') 100 wUserFix (List.replicate 64 '0') 100
    rfl (by decide) rfl (by decide)
    (by
      intro e he
      rw [show assocGet wStateFix.waitlist "x@y.zz".data = none from by decide] at he
      exact Option.noConfusion he)
    rfl (by decide) rfl (by decide)
    (by decide) (by decide) (by decide) (by decide)
    rfl (by decide) rfl (by decide)
    (by
      intro u hu
      rw [show getUserByUsername wStateFix.users "q@r.ss".data = none from by decide] at hu
      exact Option.noConfusion hu)
    rfl (by decide) rfl (by decide)
    (by decide) (by decide) (by decide) (by decide)
  refine ⟨h.1, ?_, h.2.2.2.1, ?_⟩
  · have h2 := h.2.1
    rw [if_pos (by decide), if_neg (by decide)] at h2
    rw [h2]
  · have h4 := h.2.2.2.2.1
    rw [if_pos (by decide), if_neg (by decide)] at h4
    rw [h4]

theorem verifyWaitlist_preserves_tokenless
    (d : Str → Str) (now : Nat) (st : ServerState) (req : ApiReq) (email : Str)
    (e : WEntry) (hget : assocGet st.waitlist email = some e)
    (hnone : e.emailVerificationToken = none) :
    assocGet (verifyWaitlistHandler d now st req).1.waitlist email = some e := by
  by_cases hpre : (optFalsy req.token || optFalsy req.email) = true
  · simp [verifyWaitlistHandler, hpre, hget]
  · cases hget2 : assocGet st.waitlist ((req.email).getD []) with
    | none => simp [verifyWaitlistHandler, hpre, hget2, hget]
    | some entry =>
      cases htok : entry.emailVerificationToken with
      | none => simp [verifyWaitlistHandler, hpre, hget2, htok, hget]
      | some stored =>
        have hne : (req.email).getD [] ≠ email := by
          intro hc
          rw [hc, hget] at hget2
          rw [Option.some.inj hget2] at hnone
          rw [hnone] at htok
          exact Option.noConfusion htok
        by_cases hse : stored = []
        · simp [verifyWaitlistHandler, hpre, hget2, htok, hse, hget]
        · cases hvt : verifyTokenHash d ((req.token).getD []) stored with
          | error err =>
            simp [verifyWaitlistHandler, hpre, hget2, htok, hse, hvt, hget]
          | ok b =>
            cases b with
            | false =>
              simp [verifyWaitlistHandler, hpre, hget2, htok, hse, hvt, hget]
            | true =>
              cases hexp : entry.emailVerificationExpires with
              | some ex =>
                by_cases hx : isVerificationExpired now ex = true
                · simp [verifyWaitlistHandler, hpre, hget2, htok, hse, hvt,
                    hexp, hx, hget]
                · simp [verifyWaitlistHandler, hpre, hget2, htok, hse, hvt,
                    hexp, hx, updateWaitlistVerification,
                    assocGet_assocSet_ne _ _ _ _ hne, hget]
              | none =>
                simp [verifyWaitlistHandler, hpre, hget2, htok, hse, hvt,
                  hexp, updateWaitlistVerification,
                  assocGet_assocSet_ne _ _ _ _ hne, hget]

theorem verifyWaitlist_fold_preserves (d : Str → Str) (email : Str) (e : WEntry)
    (reqs : List (ApiReq × Nat)) :
    ∀ st : ServerState, assocGet st.waitlist email = some e →
      e.emailVerificationToken = none →
      assocGet ((reqs.foldl
        (fun s rq => (verifyWaitlistHandler d rq.2 s rq.1).1) st)).waitlist email
        = some e := by
  induction reqs with
  | nil =>
    intro st h _
    simpa using h
  | cons r rs ih =>
    intro st h hn
    simp only [List.foldl_cons]
    exact ih _ (verifyWaitlist_preserves_tokenless d r.2 st r.1 email e h hn) hn

/-- C10: `MemStorage.createWaitlistEntry` stores null verification fields
regardless of its input, so a waitlist entry created through it has no
stored token hash; every verify-waitlist request for that email (with token
and email present) answers 404 "Invalid verification link", and no sequence
of verify-waitlist requests can ever change the entry — in particular it
can never reach the Verified state through the verification endpoint. -/
theorem memstorage_waitlist_entry_never_verified :
    (∀ (newId : Str) (now : Nat) (input : WInsert) (m : AssocMap WEntry),
      (createWaitlistEntry newId now input m).2.emailVerificationToken = none ∧
      (createWaitlistEntry newId now input m).2.emailVerificationExpires = none ∧
      assocGet (createWaitlistEntry newId now input m).1 input.email
        = some (createWaitlistEntry newId now input m).2) ∧
    (∀ (d : Str → Str) (now : Nat) (st : ServerState) (req : ApiReq)
       (email : Str) (e : WEntry),
      req.email = some email → email ≠ [] → optFalsy req.token = false →
      assocGet st.waitlist email = some e → e.emailVerificationToken = none →
      verifyWaitlistHandler d now st req
        = (st, resp404 msgInvalidVerificationLink)) ∧
    (∀ (d : Str → Str) (st : ServerState) (reqs : List (ApiReq × Nat))
       (email : Str) (e : WEntry),
      assocGet st.waitlist email = some e → e.emailVerificationToken = none →
      assocGet ((reqs.foldl
        (fun s rq => (verifyWaitlistHandler d rq.2 s rq.1).1) st)).waitlist email
        = some e) := by
  refine ⟨?_, ?_, ?_⟩
  · intro newId now input m
    refine ⟨by simp [createWaitlistEntry], by simp [createWaitlistEntry], ?_⟩
    simp [createWaitlistEntry, assocGet_assocSet_self]
  · intro d now st req email e hre hene htok hget hnone
    simp [verifyWaitlistHandler, hre, optFalsy_some_ne _ hene, htok, hget, hnone]
  · intro d st reqs email e hget hnone
    exact verifyWaitlist_fold_preserves d email e reqs st hget hnone

/-- C10 witness: the created entry drops the supplied token and expiry; the
subsequent verify request 404s and a sequence of verify requests leaves the
entry untouched. -/
theorem memstorage_waitlist_entry_never_verified_witness :
    (createWaitlistEntry "w2".data 5 wInputFix []).2 = wCreatedFix ∧
    verifyWaitlistHandler wDigest 7 wState2Fix
      { token := some "t".data, email := some "w@x.yy".data }
      = (wState2Fix, resp404 msgInvalidVerificationLink) ∧
    assocGet (([({ token := some "t".data, email := some "w@x.yy".data }, 7),
        ({ token := some "s".data, email := some "w@x.yy".data }, 9)]
      : List (ApiReq × Nat)).foldl
        (fun s rq => (verifyWaitlistHandler wDigest rq.2 s rq.1).1)
        wState2Fix).waitlist "w@x.yy".data = some wCreatedFix := by
  have h := memstorage_waitlist_entry_never_verified
  refine ⟨by decide, ?_, ?_⟩
  · exact h.2.1 wDigest 7 wState2Fix
      { token := some "t".data, email := some "w@x.yy".data }
      "w@x.yy".data wCreatedFix rfl (by decide) (by decide) (by decide) rfl
  · exact h.2.2 wDigest wState2Fix
      [({ token := some "t".data, email := some "w@x.yy".data }, 7),
       ({ token := some "s".data, email := some "w@x.yy".data }, 9)]
      "w@x.yy".data wCreatedFix (by decide) rfl

end WebApi

